import Mathlib

/-!
Shallow embedding of the persistence gateway in `src/service/models.py`
(the `Pet` model backed by a Cloudant document store), together with
theorems checking the natural-language specification against it.

Conventions of the embedding:
* Python wire values (`str`, `bool`, `int`, `None`) are modelled by `Value`.
* A JSON-like document (Python `dict`) is an insertion-ordered association
  list `Doc`; keys produced by the source are distinct.
* Python exceptions are modelled by `PyError`; a raising computation
  returns `Except PyError α`, and an in-place-mutating method such as
  `Pet.deserialize` returns the mutated object together with the raised
  exception, if any.
* Machine-level concerns (HTTP, sockets, logging, `print`) are outside the
  model; the document store client is an oracle mapping the attempt index
  to the store's response for that invocation.
-/

/-- Python wire values appearing in documents and entity attributes. -/
inductive Value where
  | vStr (s : String)
  | vBool (b : Bool)
  | vInt (n : Int)
  | vNone
  deriving DecidableEq, Repr

/-- Python truthiness (`if self.id:`): `None`, `""`, `False` and `0` are falsy. -/
def Value.truthy : Value → Bool
  | .vStr s => decide (s ≠ "")
  | .vBool b => b
  | .vInt n => decide (n ≠ 0)
  | .vNone => false

/-- Rendering of `str(type(x))` used in the `available` type-check message.
The apostrophes of CPython's rendering are written with escapes. -/
def Value.typeName : Value → String
  | .vStr _ => "<class \x27str\x27>"
  | .vBool _ => "<class \x27bool\x27>"
  | .vInt _ => "<class \x27int\x27>"
  | .vNone => "<class \x27NoneType\x27>"

/-- `Gender(Enum)` from the source: MALE = 0, FEMALE = 1, UNKNOWN = 3. -/
inductive Gender where
  | MALE
  | FEMALE
  | UNKNOWN
  deriving DecidableEq, Repr

/-- `gender.name`: the member name as a string (used by `Pet.serialize`). -/
def Gender.name : Gender → String
  | .MALE => "MALE"
  | .FEMALE => "FEMALE"
  | .UNKNOWN => "UNKNOWN"

/-- `getattr(Gender, s)` restricted to enum member names: `some` member when
`s` names a member, `none` when the dynamic attribute lookup raises
`AttributeError`.  (Lookups of Python class-machinery attributes such as
dunder names are outside the model; no claim evaluates the model there.) -/
def Gender.fromName (s : String) : Option Gender :=
  if s = "MALE" then some .MALE
  else if s = "FEMALE" then some .FEMALE
  else if s = "UNKNOWN" then some .UNKNOWN
  else none

theorem Gender.fromName_name (g : Gender) : Gender.fromName g.name = some g := by
  cases g <;> rfl

/-- `datetime.date`: a calendar date. -/
structure PyDate where
  year : Nat
  month : Nat
  day : Nat
  deriving DecidableEq, Repr

/-- Gregorian leap-year test, as in `datetime`. -/
def isLeap (y : Nat) : Bool := (y % 4 == 0 && y % 100 != 0) || (y % 400 == 0)

/-- Days in a month, as validated by the `datetime.date` constructor. -/
def daysInMonth (y m : Nat) : Nat :=
  if m = 2 then (if isLeap y then 29 else 28)
  else if m = 4 ∨ m = 6 ∨ m = 9 ∨ m = 11 then 30
  else 31

/-- The range-validity invariant of `datetime.date` (MINYEAR = 1, MAXYEAR = 9999). -/
def PyDate.valid (d : PyDate) : Prop :=
  1 ≤ d.year ∧ d.year ≤ 9999 ∧ 1 ≤ d.month ∧ d.month ≤ 12 ∧
    1 ≤ d.day ∧ d.day ≤ daysInMonth d.year d.month

instance (d : PyDate) : Decidable d.valid := by
  unfold PyDate.valid; exact inferInstance

theorem daysInMonth_le (y m : Nat) : daysInMonth y m ≤ 31 := by
  unfold daysInMonth
  split
  · split <;> omega
  · split <;> omega

/-- The decimal digit character for `n % 10`. -/
def digitChar (n : Nat) : Char :=
  match n % 10 with
  | 0 => '0' | 1 => '1' | 2 => '2' | 3 => '3' | 4 => '4'
  | 5 => '5' | 6 => '6' | 7 => '7' | 8 => '8' | _ => '9'

/-- Numeric value of a decimal digit character, `none` on non-digits. -/
def digitVal (c : Char) : Option Nat :=
  if 48 ≤ c.toNat ∧ c.toNat ≤ 57 then some (c.toNat - 48) else none

theorem digitVal_digitChar (n : Nat) : digitVal (digitChar n) = some (n % 10) := by
  have h : n % 10 = 0 ∨ n % 10 = 1 ∨ n % 10 = 2 ∨ n % 10 = 3 ∨ n % 10 = 4 ∨
      n % 10 = 5 ∨ n % 10 = 6 ∨ n % 10 = 7 ∨ n % 10 = 8 ∨ n % 10 = 9 := by omega
  unfold digitChar
  rcases h with h | h | h | h | h | h | h | h | h | h <;> rw [h] <;> rfl

/-- Zero-padded two-digit rendering (`f"{n:02d}"` for `n ≤ 99`). -/
def pad2 (n : Nat) : List Char := [digitChar (n / 10), digitChar n]

/-- Zero-padded four-digit rendering (`f"{n:04d}"` for `n ≤ 9999`). -/
def pad4 (n : Nat) : List Char :=
  [digitChar (n / 1000), digitChar (n / 100), digitChar (n / 10), digitChar n]

/-- `date.isoformat()`: the ten-character string `YYYY-MM-DD`. -/
def PyDate.toIso (d : PyDate) : String :=
  String.mk (pad4 d.year ++ '-' :: (pad2 d.month ++ '-' :: pad2 d.day))

/-- `date.fromisoformat`: parses `YYYY-MM-DD`, validating ranges as the
`date` constructor does; `none` models the raised `ValueError`. -/
def PyDate.fromIso (s : String) : Option PyDate :=
  match s.data with
  | [y1, y2, y3, y4, c5, m1, m2, c8, d1, d2] =>
    if c5 = '-' ∧ c8 = '-' then
      match digitVal y1, digitVal y2, digitVal y3, digitVal y4,
            digitVal m1, digitVal m2, digitVal d1, digitVal d2 with
      | some a, some b, some c, some d, some e, some f, some g, some h =>
        let y := 1000 * a + 100 * b + 10 * c + d
        let mo := 10 * e + f
        let da := 10 * g + h
        if 1 ≤ y ∧ 1 ≤ mo ∧ mo ≤ 12 ∧ 1 ≤ da ∧ da ≤ daysInMonth y mo then
          some ⟨y, mo, da⟩
        else none
      | _, _, _, _, _, _, _, _ => none
    else none
  | _ => none

theorem PyDate.fromIso_toIso (d : PyDate) (h : d.valid) :
    PyDate.fromIso d.toIso = some d := by
  obtain ⟨h1, h2, h3, h4, h5, h6⟩ := h
  have hda : d.day ≤ 31 := le_trans h6 (daysInMonth_le d.year d.month)
  unfold PyDate.toIso PyDate.fromIso pad4 pad2
  simp only [List.cons_append, List.nil_append, digitVal_digitChar]
  have e1 : 1000 * (d.year / 1000 % 10) + 100 * (d.year / 100 % 10) +
      10 * (d.year / 10 % 10) + d.year % 10 = d.year := by omega
  have e2 : 10 * (d.month / 10 % 10) + d.month % 10 = d.month := by omega
  have e3 : 10 * (d.day / 10 % 10) + d.day % 10 = d.day := by omega
  simp only [e1, e2, e3]
  simp [h1, h3, h4, h5, h6]

/-- A Python `dict` document: an insertion-ordered association list. -/
def Doc : Type := List (String × Value)

/-- `data[k]` as an `Option` (`none` models the raised `KeyError k`). -/
def lookupDoc (d : Doc) (k : String) : Option Value :=
  match d with
  | [] => none
  | (k2, v) :: rest => if k2 = k then some v else lookupDoc rest k

/-- `k in data`. -/
def hasKey (d : Doc) (k : String) : Bool := (lookupDoc d k).isSome

theorem lookupDoc_append (l1 l2 : List (String × Value)) (k : String) :
    lookupDoc (l1 ++ l2) k =
      match lookupDoc l1 k with
      | some v => some v
      | none => lookupDoc l2 k := by
  induction l1 with
  | nil => rfl
  | cons p rest ih =>
    obtain ⟨k2, v⟩ := p
    by_cases h : k2 = k <;> simp [lookupDoc, h, ih]

/-- Python exceptions relevant to the gateway. `apiException` is the
`ibm_cloud_sdk_core.ApiException` raised by the store client;
`dataValidationError` and `databaseConnectionError` are the two custom
exception classes of the source. -/
inductive PyError where
  | keyError (key : String)
  | typeError
  | attributeError (attr : String)
  | valueError (msg : String)
  | dataValidationError (msg : String)
  | databaseConnectionError (msg : String)
  | apiException (code : Nat) (msg : String)
  deriving DecidableEq, Repr

/-- An `ApiException` raised by the Cloudant client: HTTP status code and text. -/
structure ApiErr where
  code : Nat
  msg : String
  deriving DecidableEq, Repr

/-- `f"{pre}{e.code} Error: {e}"`: the message pattern of the source's
`DatabaseConnectionError` wrappers. -/
def ApiErr.render (pre : String) (e : ApiErr) : String :=
  pre ++ toString e.code ++ " Error: " ++ e.msg

/-- The in-memory `Pet` entity.  Attribute types follow the dynamic
assignments of the source: `id`, `rev`, `name`, `category` and `available`
may hold any wire value (`vNone` models Python `None`). -/
structure Pet where
  id : Value
  rev : Value
  name : Value
  category : Value
  available : Value
  gender : Gender
  birthday : PyDate
  deriving DecidableEq, Repr

/-- Module-level state fixed when `models.py` is imported: the value of
`date.today()` captured by the `birthday` default argument of
`Pet.__init__`, which Python evaluates once at class-definition time. -/
structure ModuleEnv where
  petDefaultBirthday : PyDate
  deriving DecidableEq, Repr

/-- `Pet()` — the constructor invoked with no arguments, as in the finder
methods: `id`/`rev` are `None`, `name`/`category` default to `None`,
`available` to `True`, `gender` to `Gender.UNKNOWN`, and `birthday` to the
default captured at class-definition time. -/
def Pet.fresh (env : ModuleEnv) : Pet :=
  { id := .vNone, rev := .vNone, name := .vNone, category := .vNone,
    available := .vBool true, gender := .UNKNOWN,
    birthday := env.petDefaultBirthday }

/-- `Pet.__init__` with all five data arguments supplied and `birthday`
omitted: the `today` parameter is the calendar date at construction time,
which the source's default argument does NOT consult (the default was
evaluated once at class-definition time). -/
def Pet.initNoBirthday (env : ModuleEnv) (_today : PyDate) (name category available : Value)
    (gender : Gender) : Pet :=
  { id := .vNone, rev := .vNone, name := name, category := category,
    available := available, gender := gender,
    birthday := env.petDefaultBirthday }

/-- `Pet.serialize`: the wire document, with `_id`/`_rev` appended only
when truthy. -/
def Pet.serialize (p : Pet) : Doc :=
  let base : List (String × Value) :=
    [("name", p.name), ("category", p.category), ("available", p.available),
     ("gender", .vStr p.gender.name), ("birthday", .vStr p.birthday.toIso)]
  let withId := if p.id.truthy then base ++ [("_id", p.id)] else base
  if p.rev.truthy then withId ++ [("_rev", p.rev)] else withId

/-- `Pet.deserialize(data)`, including its in-place mutation: returns the
state of `self` when the method finishes (normally or by raising) together
with the exception raised, if any.  Mirrors the source statement by
statement: field assignments happen in order inside `try`; `KeyError k`
is converted to `DataValidationError ("Invalid pet: missing " ++ k)`;
`TypeError` (non-string argument to `getattr` or `date.fromisoformat`) is
converted to `DataValidationError` with the bad-data message; the
`DataValidationError` raised for a non-boolean `available`, the
`AttributeError` from `getattr(Gender, s)` on an unrecognized member name
and the `ValueError` from `date.fromisoformat` are not caught by the
`except` clauses and propagate as they are.  On success, `_id` is copied
into `id` only when `id` is falsy, and `_rev` is always copied. -/
def Pet.deserializeRun (self : Pet) (data : Doc) : Pet × Option PyError :=
  match lookupDoc data "name" with
  | none => (self, some (.dataValidationError "Invalid pet: missing name"))
  | some vName =>
    let s1 := { self with name := vName }
    match lookupDoc data "category" with
    | none => (s1, some (.dataValidationError "Invalid pet: missing category"))
    | some vCat =>
      let s2 := { s1 with category := vCat }
      match lookupDoc data "available" with
      | none => (s2, some (.dataValidationError "Invalid pet: missing available"))
      | some vAv =>
        match vAv with
        | .vBool b =>
          let s3 := { s2 with available := .vBool b }
          match lookupDoc data "gender" with
          | none => (s3, some (.dataValidationError "Invalid pet: missing gender"))
          | some vGen =>
            match vGen with
            | .vStr gs =>
              match Gender.fromName gs with
              | none => (s3, some (.attributeError gs))
              | some g =>
                let s4 := { s3 with gender := g }
                match lookupDoc data "birthday" with
                | none => (s4, some (.dataValidationError "Invalid pet: missing birthday"))
                | some vBd =>
                  match vBd with
                  | .vStr bs =>
                    match PyDate.fromIso bs with
                    | none =>
                      (s4, some (.valueError ("Invalid isoformat string: " ++ bs)))
                    | some bd =>
                      let s5 := { s4 with birthday := bd }
                      let s6 :=
                        if !s5.id.truthy && hasKey data "_id" then
                          { s5 with id := (lookupDoc data "_id").getD .vNone }
                        else s5
                      let s7 :=
                        if hasKey data "_rev" then
                          { s6 with rev := (lookupDoc data "_rev").getD .vNone }
                        else s6
                      (s7, none)
                  | _ =>
                    (s4, some (.dataValidationError
                      "Invalid pet: body of request contained bad or no data"))
            | _ =>
              (s3, some (.dataValidationError
                "Invalid pet: body of request contained bad or no data"))
        | _ =>
          (s2, some (.dataValidationError
            ("Invalid type for boolean [available]: " ++ vAv.typeName)))

/-- Retry configuration defaults from the source's environment parsing
(`RETRY_COUNT = 10` total attempts). -/
def RETRY_COUNT : Nat := 10

/-- `RETRY_DELAY = 1` (seconds before the first re-attempt). -/
def RETRY_DELAY : Nat := 1

/-- `RETRY_BACKOFF = 2` (multiplier applied to the delay after each failure). -/
def RETRY_BACKOFF : Nat := 2

/-- Outcome of one decorated operation: the returned value or raised
exception, the number of invocations of the decorated function, the number
of store calls actually issued, and the sequence of sleeps performed
between consecutive attempts. -/
structure RunResult (α : Type) where
  result : Except PyError α
  attempts : Nat
  storeCalls : Nat
  delays : List Nat
  deriving Repr

/-- Modelled from the spec: the external `retry` decorator
(RetryPolicy, spec section 4.2), which is imported from the `retry`
package rather than defined in the repository.  `catches` is the exception
classification (`retry(ExcClass, ...)` membership test); one invocation of
the wrapped body is made per attempt; a caught exception with attempts
remaining sleeps for `delay` and recurses with `delay * backoff`; a
non-matching exception, or exhaustion of attempts, re-raises.  `rest` is
the number of attempts remaining after the current one. -/
def retryAux {α : Type} (catches : PyError → Bool) (op : Nat → Except PyError α × Nat)
    (backoff : Nat) : Nat → Nat → Nat → RunResult α
  | 0, idx, _ =>
    let (r, sc) := op idx
    ⟨r, 1, sc, []⟩
  | rest + 1, idx, delay =>
    let (r, sc) := op idx
    match r with
    | .ok a => ⟨.ok a, 1, sc, []⟩
    | .error e =>
      if catches e then
        let r2 := retryAux catches op backoff rest (idx + 1) (delay * backoff)
        ⟨r2.result, r2.attempts + 1, sc + r2.storeCalls, delay :: r2.delays⟩
      else ⟨.error e, 1, sc, []⟩

/-- Modelled from the spec: `@retry(ExcClass, delay, backoff, tries)` with
`tries` total attempts. -/
def retryRun {α : Type} (catches : PyError → Bool) (tries delay backoff : Nat)
    (op : Nat → Except PyError α × Nat) : RunResult α :=
  retryAux catches op backoff (tries - 1) 0 delay

/-- The classification used on `create`/`update`/`delete`:
`@retry(DatabaseConnectionError, ...)`. -/
def catchesDb : PyError → Bool
  | .databaseConnectionError _ => true
  | _ => false

/-- The classification used on the query methods (`all`, `find_by`,
`find`, `find_by_*`): `@retry(ApiException, ...)`. -/
def catchesApi : PyError → Bool
  | .apiException _ _ => true
  | _ => false

/-- `{ok, id, rev}` result of `client.post_document(...).get_result()`. -/
structure PostResult where
  ok : Bool
  id : String
  rev : String
  deriving DecidableEq, Repr

/-- `{ok}` result of `client.delete_document(...).get_result()`. -/
structure DeleteResult where
  ok : Bool
  deriving DecidableEq, Repr

/-- One attempt of the body of `Pet.create`: the local `name is None`
validation, then the store call; any `ApiException` is wrapped into
`DatabaseConnectionError`; on success `id`/`rev` are set from the response
and the id is returned.  The second component counts store calls made. -/
def Pet.createAttempt (p : Pet) (store : Nat → Except ApiErr PostResult) (i : Nat) :
    Except PyError (Pet × String) × Nat :=
  if p.name = Value.vNone then
    (.error (.dataValidationError "name attribute is not set"), 0)
  else
    match store i with
    | .error e =>
      (.error (.databaseConnectionError (ApiErr.render "Create failed Code: " e)), 1)
    | .ok r => (.ok ({ p with id := .vStr r.id, rev := .vStr r.rev }, r.id), 1)

/-- `Pet.create` under its `@retry(DatabaseConnectionError, ...)` decorator. -/
def Pet.create (p : Pet) (store : Nat → Except ApiErr PostResult) :
    RunResult (Pet × String) :=
  retryRun catchesDb RETRY_COUNT RETRY_DELAY RETRY_BACKOFF (Pet.createAttempt p store)

/-- One attempt of the body of `Pet.update`: no local validation; the store
call; `ApiException` wrapped into `DatabaseConnectionError`; on success
only `rev` is refreshed. -/
def Pet.updateAttempt (p : Pet) (store : Nat → Except ApiErr PostResult) (i : Nat) :
    Except PyError Pet × Nat :=
  match store i with
  | .error e =>
    (.error (.databaseConnectionError (ApiErr.render "Update failed Code: " e)), 1)
  | .ok r => (.ok { p with rev := .vStr r.rev }, 1)

/-- `Pet.update` under its `@retry(DatabaseConnectionError, ...)` decorator. -/
def Pet.update (p : Pet) (store : Nat → Except ApiErr PostResult) : RunResult Pet :=
  retryRun catchesDb RETRY_COUNT RETRY_DELAY RETRY_BACKOFF (Pet.updateAttempt p store)

/-- One attempt of the body of `Pet.delete`: the `delete_document` call
keyed by `id`/`rev`; `ApiException` wrapped into `DatabaseConnectionError`
(the source reuses the `Update failed` message text in `delete`). -/
def Pet.deleteAttempt (p : Pet) (store : Nat → Except ApiErr DeleteResult) (i : Nat) :
    Except PyError Pet × Nat :=
  match store i with
  | .error e =>
    (.error (.databaseConnectionError (ApiErr.render "Update failed Code: " e)), 1)
  | .ok _ => (.ok p, 1)

/-- `Pet.delete` under its `@retry(DatabaseConnectionError, ...)` decorator. -/
def Pet.delete (p : Pet) (store : Nat → Except ApiErr DeleteResult) : RunResult Pet :=
  retryRun catchesDb RETRY_COUNT RETRY_DELAY RETRY_BACKOFF (Pet.deleteAttempt p store)

/-- The decoding loop of `Pet.all`: each row's `doc` is deserialized into a
fresh `Pet`; the first exception aborts the whole call (fail-fast, no
partial results). -/
def decodeDocs (env : ModuleEnv) : List Doc → Except PyError (List Pet)
  | [] => .ok []
  | d :: ds =>
    match (Pet.fresh env).deserializeRun d with
    | (pet, none) =>
      match decodeDocs env ds with
      | .ok ps => .ok (pet :: ps)
      | .error e => .error e
    | (_, some e) => .error e

/-- One attempt of the body of `Pet.all`: `post_all_docs` then the decode
loop; `ApiException` wrapped into `DatabaseConnectionError` — so the
surrounding `@retry(ApiException, ...)` decorator never sees an
`ApiException`. -/
def Pet.allAttempt (env : ModuleEnv) (store : Nat → Except ApiErr (List Doc)) (i : Nat) :
    Except PyError (List Pet) × Nat :=
  match store i with
  | .error e =>
    (.error (.databaseConnectionError (ApiErr.render "Query All failed Code: " e)), 1)
  | .ok docs => (decodeDocs env docs, 1)

/-- `Pet.all` under its `@retry(ApiException, ...)` decorator. -/
def Pet.all (env : ModuleEnv) (store : Nat → Except ApiErr (List Doc)) :
    RunResult (List Pet) :=
  retryRun catchesApi RETRY_COUNT RETRY_DELAY RETRY_BACKOFF (Pet.allAttempt env store)

/-- The decoding loop of `Pet.find_by`: deserialize each matching doc, then
re-assign `pet.id = doc["_id"]` (a `KeyError` when `_id` is absent). -/
def decodeDocsWithId (env : ModuleEnv) : List Doc → Except PyError (List Pet)
  | [] => .ok []
  | d :: ds =>
    match (Pet.fresh env).deserializeRun d with
    | (pet, none) =>
      match lookupDoc d "_id" with
      | none => .error (.keyError "_id")
      | some v =>
        match decodeDocsWithId env ds with
        | .ok ps => .ok ({ pet with id := v } :: ps)
        | .error e => .error e
    | (_, some e) => .error e

/-- One attempt of the body of `Pet.find_by`: `post_find` with the selector
(selector matching is performed by the external store, here an oracle),
then the decode loop; `ApiException` wrapped into
`DatabaseConnectionError`. -/
def Pet.findByAttempt (env : ModuleEnv) (store : Nat → Except ApiErr (List Doc)) (i : Nat) :
    Except PyError (List Pet) × Nat :=
  match store i with
  | .error e =>
    (.error (.databaseConnectionError (ApiErr.render "Find By failed Code: " e)), 1)
  | .ok docs => (decodeDocsWithId env docs, 1)

/-- `Pet.find_by` under its `@retry(ApiException, ...)` decorator. -/
def Pet.find_by (env : ModuleEnv) (store : Nat → Except ApiErr (List Doc)) :
    RunResult (List Pet) :=
  retryRun catchesApi RETRY_COUNT RETRY_DELAY RETRY_BACKOFF (Pet.findByAttempt env store)

/-- One attempt of the body of `Pet.find`: `get_document` by id; ANY
`ApiException` (404 or otherwise) is swallowed and `None` is returned; on a
fetched document, deserialization errors propagate, then
`pet.id = document["_id"]` is re-assigned. -/
def Pet.findAttempt (env : ModuleEnv) (store : Nat → Except ApiErr Doc) (i : Nat) :
    Except PyError (Option Pet) × Nat :=
  match store i with
  | .error _ => (.ok none, 1)
  | .ok doc =>
    match (Pet.fresh env).deserializeRun doc with
    | (pet, none) =>
      match lookupDoc doc "_id" with
      | none => (.error (.keyError "_id"), 1)
      | some v => (.ok (some { pet with id := v }), 1)
    | (_, some e) => (.error e, 1)

/-- `Pet.find` under its `@retry(ApiException, ...)` decorator. -/
def Pet.find (env : ModuleEnv) (store : Nat → Except ApiErr Doc) :
    RunResult (Option Pet) :=
  retryRun catchesApi RETRY_COUNT RETRY_DELAY RETRY_BACKOFF (Pet.findAttempt env store)

theorem retryAux_first_ok {α : Type} (catches : PyError → Bool)
    (op : Nat → Except PyError α × Nat) (backoff rest idx delay : Nat)
    (a : α) (sc : Nat) (h : op idx = (.ok a, sc)) :
    retryAux catches op backoff rest idx delay = ⟨.ok a, 1, sc, []⟩ := by
  cases rest <;> simp [retryAux, h]

theorem retryAux_first_uncaught {α : Type} (catches : PyError → Bool)
    (op : Nat → Except PyError α × Nat) (backoff rest idx delay : Nat)
    (e : PyError) (sc : Nat) (h : op idx = (.error e, sc))
    (hc : catches e = false) :
    retryAux catches op backoff rest idx delay = ⟨.error e, 1, sc, []⟩ := by
  cases rest <;> simp [retryAux, h, hc]

theorem delays_cons (delay backoff k : Nat) :
    delay :: List.map (fun i => delay * backoff * backoff ^ i) (List.range k) =
      List.map (fun i => delay * backoff ^ i) (List.range (k + 1)) := by
  rw [List.range_succ_eq_map]
  simp only [List.map_cons, List.map_map, pow_zero, mul_one]
  congr 1
  apply List.map_congr_left
  intro x _
  simp [Function.comp, pow_succ]
  ring

/-- Bounded retry, success case: when the wrapped body fails with a caught
exception on the first `k` invocations and succeeds on invocation `k + 1`,
with at least `k` retries remaining, the run returns the success after
`k + 1` invocations, and the sleeps form the geometric backoff sequence. -/
theorem retryAux_ok {α : Type} (catches : PyError → Bool)
    (op : Nat → Except PyError α × Nat) (backoff : Nat) (e : PyError) (a : α)
    (hc : catches e = true) (k : Nat) :
    ∀ rest idx delay, k ≤ rest →
    (∀ j, j < k → op (idx + j) = (.error e, 1)) →
    op (idx + k) = (.ok a, 1) →
    retryAux catches op backoff rest idx delay =
      ⟨.ok a, k + 1, k + 1, List.map (fun i => delay * backoff ^ i) (List.range k)⟩ := by
  induction k with
  | zero =>
    intro rest idx delay _ _ hok
    rw [Nat.add_zero] at hok
    simp [retryAux_first_ok catches op backoff rest idx delay a 1 hok]
  | succ k ih =>
    intro rest idx delay hle hfail hok
    obtain ⟨rest2, rfl⟩ : ∃ r2, rest = r2 + 1 := ⟨rest - 1, by omega⟩
    have h0 : op idx = (.error e, 1) := by
      have := hfail 0 (by omega)
      rwa [Nat.add_zero] at this
    have hfail2 : ∀ j, j < k → op (idx + 1 + j) = (.error e, 1) := by
      intro j hj
      have := hfail (j + 1) (by omega)
      rwa [show idx + (j + 1) = idx + 1 + j by omega] at this
    have hok2 : op (idx + 1 + k) = (.ok a, 1) := by
      rwa [show idx + (k + 1) = idx + 1 + k by omega] at hok
    have hrec := ih rest2 (idx + 1) (delay * backoff) (by omega) hfail2 hok2
    simp only [retryAux, h0, hc, if_true, hrec]
    rw [← delays_cons]
    congr 1
    omega

/-- Bounded retry, exhaustion case: when every invocation that can be made
fails with a caught exception, all `rest + 1` attempts are used, the last
exception is re-raised, and the sleeps form the geometric backoff
sequence (no sleep after the final failure). -/
theorem retryAux_err {α : Type} (catches : PyError → Bool)
    (op : Nat → Except PyError α × Nat) (backoff : Nat) (e : PyError)
    (hc : catches e = true) :
    ∀ rest idx delay,
    (∀ j, j ≤ rest → op (idx + j) = (.error e, 1)) →
    retryAux catches op backoff rest idx delay =
      ⟨.error e, rest + 1, rest + 1,
        List.map (fun i => delay * backoff ^ i) (List.range rest)⟩ := by
  intro rest
  induction rest with
  | zero =>
    intro idx delay hfail
    have h0 : op idx = (.error e, 1) := by
      have := hfail 0 (by omega)
      rwa [Nat.add_zero] at this
    simp [retryAux, h0]
  | succ rest ih =>
    intro idx delay hfail
    have h0 : op idx = (.error e, 1) := by
      have := hfail 0 (by omega)
      rwa [Nat.add_zero] at this
    have hfail2 : ∀ j, j ≤ rest → op (idx + 1 + j) = (.error e, 1) := by
      intro j hj
      have := hfail (j + 1) (by omega)
      rwa [show idx + (j + 1) = idx + 1 + j by omega] at this
    have hrec := ih (idx + 1) (delay * backoff) hfail2
    simp only [retryAux, h0, hc, if_true, hrec]
    rw [← delays_cons]
    congr 1
    omega

theorem lookupDoc_mono (l1 l2 : List (String × Value)) (k : String) (v : Value)
    (h : lookupDoc l1 k = some v) : lookupDoc (l1 ++ l2) k = some v := by
  rw [lookupDoc_append, h]

theorem lookupDoc_serialize (p : Pet) (k : String) (v : Value)
    (h : lookupDoc
      [("name", p.name), ("category", p.category), ("available", p.available),
       ("gender", .vStr p.gender.name), ("birthday", .vStr p.birthday.toIso)] k
      = some v) :
    lookupDoc p.serialize k = some v := by
  unfold Pet.serialize
  dsimp only
  split_ifs <;>
    first
      | exact h
      | exact lookupDoc_mono _ _ _ _ h
      | exact lookupDoc_mono _ _ _ _ (lookupDoc_mono _ _ _ _ h)

/-- C3: for every valid Record `r` (name a non-empty string, gender one of
the three enumeration variants, birthday a calendar date, available a
genuine boolean), `Pet().deserialize(r.serialize())` succeeds and yields a
Record equal to `r` in all five data fields `name`, `category`,
`available`, `gender` and `birthday`. -/
theorem c3_roundtrip (env : ModuleEnv) (p : Pet) (s : String) (b : Bool)
    (_hname : p.name = Value.vStr s) (_hs : s ≠ "")
    (hav : p.available = Value.vBool b) (hbd : p.birthday.valid) :
    ((Pet.fresh env).deserializeRun p.serialize).2 = none ∧
    ((Pet.fresh env).deserializeRun p.serialize).1.name = p.name ∧
    ((Pet.fresh env).deserializeRun p.serialize).1.category = p.category ∧
    ((Pet.fresh env).deserializeRun p.serialize).1.available = p.available ∧
    ((Pet.fresh env).deserializeRun p.serialize).1.gender = p.gender ∧
    ((Pet.fresh env).deserializeRun p.serialize).1.birthday = p.birthday := by
  have h1 : lookupDoc p.serialize "name" = some p.name :=
    lookupDoc_serialize p _ _ (by simp [lookupDoc])
  have h2 : lookupDoc p.serialize "category" = some p.category :=
    lookupDoc_serialize p _ _ (by simp [lookupDoc])
  have h3 : lookupDoc p.serialize "available" = some (Value.vBool b) := by
    rw [← hav]
    exact lookupDoc_serialize p _ _ (by simp [lookupDoc])
  have h4 : lookupDoc p.serialize "gender" = some (.vStr p.gender.name) :=
    lookupDoc_serialize p _ _ (by simp [lookupDoc])
  have h5 : lookupDoc p.serialize "birthday" = some (.vStr p.birthday.toIso) :=
    lookupDoc_serialize p _ _ (by simp [lookupDoc])
  simp only [Pet.deserializeRun, h1, h2, h3, h4, h5, Gender.fromName_name,
    PyDate.fromIso_toIso p.birthday hbd]
  by_cases hid : hasKey p.serialize "_id" <;>
    by_cases hrev : hasKey p.serialize "_rev" <;>
      simp [hid, hrev, Pet.fresh, Value.truthy, hav]

theorem c3_roundtrip_witness :
    ((Pet.fresh ⟨⟨2023, 1, 1⟩⟩).deserializeRun
        (Pet.mk .vNone .vNone (.vStr "Fido") (.vStr "dog") (.vBool true)
          .MALE ⟨2020, 1, 1⟩).serialize).2 = none ∧
    ((Pet.fresh ⟨⟨2023, 1, 1⟩⟩).deserializeRun
        (Pet.mk .vNone .vNone (.vStr "Fido") (.vStr "dog") (.vBool true)
          .MALE ⟨2020, 1, 1⟩).serialize).1.name = (.vStr "Fido") ∧
    ((Pet.fresh ⟨⟨2023, 1, 1⟩⟩).deserializeRun
        (Pet.mk .vNone .vNone (.vStr "Fido") (.vStr "dog") (.vBool true)
          .MALE ⟨2020, 1, 1⟩).serialize).1.category = (.vStr "dog") ∧
    ((Pet.fresh ⟨⟨2023, 1, 1⟩⟩).deserializeRun
        (Pet.mk .vNone .vNone (.vStr "Fido") (.vStr "dog") (.vBool true)
          .MALE ⟨2020, 1, 1⟩).serialize).1.available = (.vBool true) ∧
    ((Pet.fresh ⟨⟨2023, 1, 1⟩⟩).deserializeRun
        (Pet.mk .vNone .vNone (.vStr "Fido") (.vStr "dog") (.vBool true)
          .MALE ⟨2020, 1, 1⟩).serialize).1.gender = .MALE ∧
    ((Pet.fresh ⟨⟨2023, 1, 1⟩⟩).deserializeRun
        (Pet.mk .vNone .vNone (.vStr "Fido") (.vStr "dog") (.vBool true)
          .MALE ⟨2020, 1, 1⟩).serialize).1.birthday = ⟨2020, 1, 1⟩ :=
  c3_roundtrip ⟨⟨2023, 1, 1⟩⟩
    (Pet.mk .vNone .vNone (.vStr "Fido") (.vStr "dog") (.vBool true)
      .MALE ⟨2020, 1, 1⟩)
    "Fido" true rfl (by decide) rfl (by decide)

/-- A fixed module environment for concrete evaluations: `models.py`
imported on 2023-01-01. -/
def env0 : ModuleEnv := ⟨⟨2023, 1, 1⟩⟩

/-- `Pet()` constructed under `env0`. -/
def freshPet0 : Pet := Pet.fresh env0

/-- C4 (code bug): decoding a document whose `gender` string is not one of
`MALE`/`FEMALE`/`UNKNOWN` fails with `AttributeError` from
`getattr(Gender, ...)` — which the source's `except KeyError`/`except
TypeError` clauses do not catch — and not with `DataValidationError` as
the specification states. -/
theorem c4_bad_gender_attribute_error :
    (freshPet0.deserializeRun
        [("name", .vStr "Fido"), ("category", .vStr "dog"),
         ("available", .vBool true), ("gender", .vStr "male"),
         ("birthday", .vStr "2020-01-01")]).2
      = some (.attributeError "male") ∧
    (∀ m : String, PyError.attributeError "male" ≠ .dataValidationError m) := by
  constructor
  · rfl
  · intro m h
    cases h

/-- C5 counterexample: the document
`{name: "Fido", category: "dog", available: "yes"}` is missing the
required fields `gender` and `birthday`, yet decoding fails with the
`available` type-check `DataValidationError`, whose message names neither
missing key — refuting the unconditional claim that decoding a document
missing a required field yields a ValidationError naming the first
missing required key. -/
theorem c5_counterexample :
    (freshPet0.deserializeRun
        [("name", .vStr "Fido"), ("category", .vStr "dog"),
         ("available", .vStr "yes")]).2
      = some (.dataValidationError
          "Invalid type for boolean [available]: <class \x27str\x27>") ∧
    "Invalid type for boolean [available]: <class \x27str\x27>" ≠
      "Invalid pet: missing gender" ∧
    "Invalid type for boolean [available]: <class \x27str\x27>" ≠
      "Invalid pet: missing birthday" :=
  ⟨rfl, by decide, by decide⟩

/-- C5 amended: decoding a document missing a required field fails with a
ValidationError naming the first missing key in the access order `name`,
`category`, `available`, `gender`, `birthday`, PROVIDED the required
fields read before the first missing one decode cleanly (`available` a
boolean, `gender` a recognized member name); and decoding a document
whose `name`, `category` and `available` fields are present but whose
`available` value is not boolean-typed fails with the `available` type
ValidationError. -/
theorem c5_amended (p : Pet) (d : Doc) :
    (lookupDoc d "name" = none →
      (p.deserializeRun d).2 =
        some (.dataValidationError "Invalid pet: missing name")) ∧
    (∀ vn, lookupDoc d "name" = some vn → lookupDoc d "category" = none →
      (p.deserializeRun d).2 =
        some (.dataValidationError "Invalid pet: missing category")) ∧
    (∀ vn vc, lookupDoc d "name" = some vn → lookupDoc d "category" = some vc →
      lookupDoc d "available" = none →
      (p.deserializeRun d).2 =
        some (.dataValidationError "Invalid pet: missing available")) ∧
    (∀ vn vc b, lookupDoc d "name" = some vn → lookupDoc d "category" = some vc →
      lookupDoc d "available" = some (.vBool b) → lookupDoc d "gender" = none →
      (p.deserializeRun d).2 =
        some (.dataValidationError "Invalid pet: missing gender")) ∧
    (∀ vn vc b gs g, lookupDoc d "name" = some vn →
      lookupDoc d "category" = some vc →
      lookupDoc d "available" = some (.vBool b) →
      lookupDoc d "gender" = some (.vStr gs) → Gender.fromName gs = some g →
      lookupDoc d "birthday" = none →
      (p.deserializeRun d).2 =
        some (.dataValidationError "Invalid pet: missing birthday")) ∧
    (∀ vn vc va, lookupDoc d "name" = some vn → lookupDoc d "category" = some vc →
      lookupDoc d "available" = some va → (∀ b, va ≠ .vBool b) →
      (p.deserializeRun d).2 =
        some (.dataValidationError
          ("Invalid type for boolean [available]: " ++ va.typeName))) := by
  refine ⟨?_, ?_, ?_, ?_, ?_, ?_⟩
  · intro h1
    simp only [Pet.deserializeRun, h1]
  · intro vn h1 h2
    simp only [Pet.deserializeRun, h1, h2]
  · intro vn vc h1 h2 h3
    simp only [Pet.deserializeRun, h1, h2, h3]
  · intro vn vc b h1 h2 h3 h4
    simp only [Pet.deserializeRun, h1, h2, h3, h4]
  · intro vn vc b gs g h1 h2 h3 h4 h5 h6
    simp only [Pet.deserializeRun, h1, h2, h3, h4, h5, h6]
  · intro vn vc va h1 h2 h3 hb
    cases va with
    | vBool b => exact absurd rfl (hb b)
    | vStr s => simp only [Pet.deserializeRun, h1, h2, h3]
    | vInt n => simp only [Pet.deserializeRun, h1, h2, h3]
    | vNone => simp only [Pet.deserializeRun, h1, h2, h3]

theorem c5_amended_witness :
    (freshPet0.deserializeRun
        [("name", .vStr "Fido"), ("category", .vStr "dog"),
         ("available", .vBool true)]).2
      = some (.dataValidationError "Invalid pet: missing gender") :=
  (c5_amended freshPet0
      [("name", .vStr "Fido"), ("category", .vStr "dog"),
       ("available", .vBool true)]).2.2.2.1
    (.vStr "Fido") (.vStr "dog") true rfl rfl rfl rfl

/-- C10: `Pet.deserialize` is not atomic on failure — when decoding raises
after the `name`, `category` and `available` assignments (here: a missing
`gender` key), the target record keeps those mutated fields; in
particular, when the document's `name` differs from the record's, the
record after the failed decode is not the record it was before. -/
theorem c10_partial_mutation (p : Pet) (d : Doc) (vn vc : Value) (b : Bool)
    (h1 : lookupDoc d "name" = some vn) (h2 : lookupDoc d "category" = some vc)
    (h3 : lookupDoc d "available" = some (.vBool b))
    (h4 : lookupDoc d "gender" = none) :
    p.deserializeRun d =
      ({ p with name := vn, category := vc, available := .vBool b },
       some (.dataValidationError "Invalid pet: missing gender")) ∧
    (vn ≠ p.name →
      ({ p with name := vn, category := vc, available := .vBool b } : Pet) ≠ p) := by
  constructor
  · simp only [Pet.deserializeRun, h1, h2, h3, h4]
  · intro hne heq
    exact hne (congrArg Pet.name heq)

theorem c10_partial_mutation_witness :
    freshPet0.deserializeRun
        [("name", .vStr "New"), ("category", .vStr "cat"),
         ("available", .vBool false)] =
      ({ freshPet0 with
          name := Value.vStr "New",
          category := Value.vStr "cat",
          available := Value.vBool false },
       some (.dataValidationError "Invalid pet: missing gender")) ∧
    (Value.vStr "New" ≠ freshPet0.name →
      ({ freshPet0 with
          name := Value.vStr "New",
          category := Value.vStr "cat",
          available := Value.vBool false } : Pet) ≠
        freshPet0) :=
  c10_partial_mutation freshPet0
    [("name", .vStr "New"), ("category", .vStr "cat"),
     ("available", .vBool false)]
    (.vStr "New") (.vStr "cat") false rfl rfl rfl rfl

/-- C9 (code bug): the `birthday` default of `Pet.__init__` is
`date.today()` evaluated ONCE when the class body is defined (module
import), so a Record constructed without an explicit birthday gets the
module-import date, not the date of construction — here a pet constructed
on 2026-10-12 in a process whose module was imported on 2026-10-11 gets
birthday 2026-10-11.  The `gender` default is `UNKNOWN` as claimed. -/
theorem c9_birthday_default_fixed_at_import :
    (∀ (env : ModuleEnv) (today : PyDate) (n c a : Value) (g : Gender),
      (Pet.initNoBirthday env today n c a g).birthday = env.petDefaultBirthday) ∧
    (Pet.initNoBirthday ⟨⟨2026, 10, 11⟩⟩ ⟨2026, 10, 12⟩ (.vStr "Fido") .vNone
        (.vBool true) .UNKNOWN).birthday = ⟨2026, 10, 11⟩ ∧
    ((⟨2026, 10, 11⟩ : PyDate) ≠ ⟨2026, 10, 12⟩) ∧
    (∀ env : ModuleEnv, (Pet.fresh env).gender = Gender.UNKNOWN) :=
  ⟨fun _ _ _ _ _ _ => rfl, rfl, by decide, fun _ => rfl⟩

/-- C8: `create` on a record whose `name` is unset raises
`DataValidationError` locally — the store is never invoked
(`storeCalls = 0`) and nothing is retried (one invocation, no sleeps);
on success (store accepts on the first attempt), `create` sets the
record's `id`/`rev` from the response, returns the response id, and that
id is truthy whenever the store honours its contract of returning a
non-empty id. -/
theorem c8_create_validation_and_identity (p : Pet)
    (store : Nat → Except ApiErr PostResult) (r : PostResult) :
    (p.name = Value.vNone →
      Pet.create p store =
        ⟨.error (.dataValidationError "name attribute is not set"), 1, 0, []⟩) ∧
    (p.name ≠ Value.vNone → store 0 = .ok r →
      Pet.create p store =
        ⟨.ok ({ p with id := .vStr r.id, rev := .vStr r.rev }, r.id), 1, 1, []⟩ ∧
      (r.id ≠ "" →
        ({ p with id := .vStr r.id, rev := .vStr r.rev } : Pet).id.truthy = true)) := by
  constructor
  · intro h
    have hop : Pet.createAttempt p store 0 =
        (.error (.dataValidationError "name attribute is not set"), 0) := by
      simp [Pet.createAttempt, h]
    exact retryAux_first_uncaught catchesDb (Pet.createAttempt p store)
      RETRY_BACKOFF (RETRY_COUNT - 1) 0 RETRY_DELAY _ 0 hop rfl
  · intro h hst
    constructor
    · have hop : Pet.createAttempt p store 0 =
          (.ok ({ p with id := .vStr r.id, rev := .vStr r.rev }, r.id), 1) := by
        simp [Pet.createAttempt, h, hst]
      exact retryAux_first_ok catchesDb (Pet.createAttempt p store)
        RETRY_BACKOFF (RETRY_COUNT - 1) 0 RETRY_DELAY _ 1 hop
    · intro hr
      simp [Value.truthy, hr]

/-- A pet with all data fields set, as in the spec's test scenario. -/
def petFido0 : Pet :=
  ⟨.vNone, .vNone, .vStr "Fido", .vStr "dog", .vBool true, .MALE, ⟨2020, 1, 1⟩⟩

/-- A store stub that accepts every request. -/
def stubOk : Nat → Except ApiErr PostResult :=
  fun _ => .ok ⟨true, "abc123", "1-xyz"⟩

theorem c8_create_validation_and_identity_witness :
    (Pet.create freshPet0 stubOk =
      ⟨.error (.dataValidationError "name attribute is not set"), 1, 0, []⟩) ∧
    (Pet.create petFido0 stubOk =
      ⟨.ok ({ petFido0 with id := .vStr "abc123", rev := .vStr "1-xyz" }, "abc123"),
       1, 1, []⟩ ∧
     ("abc123" ≠ "" →
      ({ petFido0 with id := .vStr "abc123", rev := .vStr "1-xyz" } : Pet).id.truthy
        = true)) :=
  ⟨(c8_create_validation_and_identity freshPet0 stubOk ⟨true, "abc123", "1-xyz"⟩).1 rfl,
   (c8_create_validation_and_identity petFido0 stubOk ⟨true, "abc123", "1-xyz"⟩).2
     (by decide) rfl⟩

theorem delays_range_one :
    List.map (fun i => RETRY_DELAY * RETRY_BACKOFF ^ i) (List.range 1)
      = [RETRY_DELAY] := by
  decide

/-- C1 counterexample: the store rejects the first `create` with a 409
revision conflict — a non-transient rejection the store itself issued —
and accepts the second; the operation does NOT propagate the rejection
immediately: it retries (two invocations, one backoff sleep) and then
succeeds, because the source wraps every `ApiException` in
`DatabaseConnectionError`, the very class its retry decorator retries. -/
theorem c1_counterexample :
    Pet.create petFido0
        (fun i => if i = 0 then .error ⟨409, "Document update conflict"⟩
          else .ok ⟨true, "abc123", "2-xyz"⟩) =
      ⟨.ok (Pet.mk (.vStr "abc123") (.vStr "2-xyz") (.vStr "Fido") (.vStr "dog")
          (.vBool true) .MALE ⟨2020, 1, 1⟩, "abc123"),
       2, 2, [RETRY_DELAY]⟩ := by
  rfl

/-- C1 amended: on `create`, `update` and `delete`, EVERY store failure —
whatever its status code, including 404, 409-conflict and bad-request —
is wrapped into `DatabaseConnectionError` and is therefore retried by the
retry policy rather than surfaced immediately: a store failing once with
an arbitrary code and then accepting leads to success after exactly two
invocations and one backoff sleep. -/
theorem c1_amended_all_store_failures_retried (c : Nat) (m : String)
    (r : PostResult) (dr : DeleteResult) (p q w : Pet)
    (hname : p.name ≠ Value.vNone) :
    Pet.create p (fun i => if i = 0 then .error ⟨c, m⟩ else .ok r) =
      ⟨.ok ({ p with id := .vStr r.id, rev := .vStr r.rev }, r.id), 2, 2,
       [RETRY_DELAY]⟩ ∧
    Pet.update q (fun i => if i = 0 then .error ⟨c, m⟩ else .ok r) =
      ⟨.ok { q with rev := .vStr r.rev }, 2, 2, [RETRY_DELAY]⟩ ∧
    Pet.delete w (fun i => if i = 0 then .error ⟨c, m⟩ else .ok dr) =
      ⟨.ok w, 2, 2, [RETRY_DELAY]⟩ := by
  refine ⟨?_, ?_, ?_⟩
  · have hf : ∀ j, j < 1 →
        Pet.createAttempt p (fun i => if i = 0 then .error ⟨c, m⟩ else .ok r) (0 + j) =
          (.error (.databaseConnectionError
            (ApiErr.render "Create failed Code: " ⟨c, m⟩)), 1) := by
      intro j hj
      obtain rfl : j = 0 := by omega
      simp [Pet.createAttempt, hname]
    have hk : Pet.createAttempt p (fun i => if i = 0 then .error ⟨c, m⟩ else .ok r)
        (0 + 1) = (.ok ({ p with id := .vStr r.id, rev := .vStr r.rev }, r.id), 1) := by
      simp [Pet.createAttempt, hname]
    have h := retryAux_ok catchesDb
      (Pet.createAttempt p (fun i => if i = 0 then .error ⟨c, m⟩ else .ok r))
      RETRY_BACKOFF
      (.databaseConnectionError (ApiErr.render "Create failed Code: " ⟨c, m⟩))
      ({ p with id := .vStr r.id, rev := .vStr r.rev }, r.id)
      rfl 1 (RETRY_COUNT - 1) 0 RETRY_DELAY (by decide) hf hk
    unfold Pet.create retryRun
    rw [h, delays_range_one]
  · have hf : ∀ j, j < 1 →
        Pet.updateAttempt q (fun i => if i = 0 then .error ⟨c, m⟩ else .ok r) (0 + j) =
          (.error (.databaseConnectionError
            (ApiErr.render "Update failed Code: " ⟨c, m⟩)), 1) := by
      intro j hj
      obtain rfl : j = 0 := by omega
      simp [Pet.updateAttempt]
    have hk : Pet.updateAttempt q (fun i => if i = 0 then .error ⟨c, m⟩ else .ok r)
        (0 + 1) = (.ok { q with rev := .vStr r.rev }, 1) := by
      simp [Pet.updateAttempt]
    have h := retryAux_ok catchesDb
      (Pet.updateAttempt q (fun i => if i = 0 then .error ⟨c, m⟩ else .ok r))
      RETRY_BACKOFF
      (.databaseConnectionError (ApiErr.render "Update failed Code: " ⟨c, m⟩))
      { q with rev := .vStr r.rev }
      rfl 1 (RETRY_COUNT - 1) 0 RETRY_DELAY (by decide) hf hk
    unfold Pet.update retryRun
    rw [h, delays_range_one]
  · have hf : ∀ j, j < 1 →
        Pet.deleteAttempt w (fun i => if i = 0 then .error ⟨c, m⟩ else .ok dr) (0 + j) =
          (.error (.databaseConnectionError
            (ApiErr.render "Update failed Code: " ⟨c, m⟩)), 1) := by
      intro j hj
      obtain rfl : j = 0 := by omega
      simp [Pet.deleteAttempt]
    have hk : Pet.deleteAttempt w (fun i => if i = 0 then .error ⟨c, m⟩ else .ok dr)
        (0 + 1) = (.ok w, 1) := by
      simp [Pet.deleteAttempt]
    have h := retryAux_ok catchesDb
      (Pet.deleteAttempt w (fun i => if i = 0 then .error ⟨c, m⟩ else .ok dr))
      RETRY_BACKOFF
      (.databaseConnectionError (ApiErr.render "Update failed Code: " ⟨c, m⟩))
      w
      rfl 1 (RETRY_COUNT - 1) 0 RETRY_DELAY (by decide) hf hk
    unfold Pet.delete retryRun
    rw [h, delays_range_one]

theorem c1_amended_witness :
    Pet.create petFido0
        (fun i => if i = 0 then .error ⟨404, "not_found"⟩
          else .ok ⟨true, "abc123", "2-xyz"⟩) =
      ⟨.ok ({ petFido0 with id := .vStr "abc123", rev := .vStr "2-xyz" }, "abc123"),
       2, 2, [RETRY_DELAY]⟩ :=
  (c1_amended_all_store_failures_retried 404 "not_found" ⟨true, "abc123", "2-xyz"⟩
    ⟨true⟩ petFido0 petFido0 petFido0 (by decide)).1

/-- C6 (retry decorator modelled from the spec): each write operation
(`create`, `update`, `delete`) wrapped with
`@retry(DatabaseConnectionError, delay=RETRY_DELAY, backoff=RETRY_BACKOFF,
tries=RETRY_COUNT)`: against a store stub that fails `k` times and then
accepts, if `k < RETRY_COUNT` the operation succeeds with exactly `k + 1`
store invocations and the sleeps `RETRY_DELAY * RETRY_BACKOFF ^ i`
(each delay the previous one multiplied by the backoff factor); if
`RETRY_COUNT ≤ k` the operation fails with `DatabaseConnectionError`
after exactly `RETRY_COUNT` invocations. -/
theorem c6_retry_bound (k c : Nat) (m : String) (r : PostResult)
    (dr : DeleteResult) (p q w : Pet) (hname : p.name ≠ Value.vNone) :
    (k < RETRY_COUNT →
      Pet.create p (fun i => if i < k then .error ⟨c, m⟩ else .ok r) =
        ⟨.ok ({ p with id := .vStr r.id, rev := .vStr r.rev }, r.id), k + 1, k + 1,
         List.map (fun i => RETRY_DELAY * RETRY_BACKOFF ^ i) (List.range k)⟩ ∧
      Pet.update q (fun i => if i < k then .error ⟨c, m⟩ else .ok r) =
        ⟨.ok { q with rev := .vStr r.rev }, k + 1, k + 1,
         List.map (fun i => RETRY_DELAY * RETRY_BACKOFF ^ i) (List.range k)⟩ ∧
      Pet.delete w (fun i => if i < k then .error ⟨c, m⟩ else .ok dr) =
        ⟨.ok w, k + 1, k + 1,
         List.map (fun i => RETRY_DELAY * RETRY_BACKOFF ^ i) (List.range k)⟩) ∧
    (RETRY_COUNT ≤ k →
      Pet.create p (fun i => if i < k then .error ⟨c, m⟩ else .ok r) =
        ⟨.error (.databaseConnectionError (ApiErr.render "Create failed Code: " ⟨c, m⟩)),
         RETRY_COUNT, RETRY_COUNT,
         List.map (fun i => RETRY_DELAY * RETRY_BACKOFF ^ i)
           (List.range (RETRY_COUNT - 1))⟩ ∧
      Pet.update q (fun i => if i < k then .error ⟨c, m⟩ else .ok r) =
        ⟨.error (.databaseConnectionError (ApiErr.render "Update failed Code: " ⟨c, m⟩)),
         RETRY_COUNT, RETRY_COUNT,
         List.map (fun i => RETRY_DELAY * RETRY_BACKOFF ^ i)
           (List.range (RETRY_COUNT - 1))⟩ ∧
      Pet.delete w (fun i => if i < k then .error ⟨c, m⟩ else .ok dr) =
        ⟨.error (.databaseConnectionError (ApiErr.render "Update failed Code: " ⟨c, m⟩)),
         RETRY_COUNT, RETRY_COUNT,
         List.map (fun i => RETRY_DELAY * RETRY_BACKOFF ^ i)
           (List.range (RETRY_COUNT - 1))⟩) := by
  have h10 : RETRY_COUNT = 10 := rfl
  constructor
  · intro hk
    refine ⟨?_, ?_, ?_⟩
    · have hf : ∀ j, j < k →
          Pet.createAttempt p (fun i => if i < k then .error ⟨c, m⟩ else .ok r) (0 + j) =
            (.error (.databaseConnectionError
              (ApiErr.render "Create failed Code: " ⟨c, m⟩)), 1) := by
        intro j hj
        simp [Pet.createAttempt, hname, hj]
      have hok : Pet.createAttempt p (fun i => if i < k then .error ⟨c, m⟩ else .ok r)
          (0 + k) = (.ok ({ p with id := .vStr r.id, rev := .vStr r.rev }, r.id), 1) := by
        simp [Pet.createAttempt, hname]
      have h := retryAux_ok catchesDb
        (Pet.createAttempt p (fun i => if i < k then .error ⟨c, m⟩ else .ok r))
        RETRY_BACKOFF
        (.databaseConnectionError (ApiErr.render "Create failed Code: " ⟨c, m⟩))
        ({ p with id := .vStr r.id, rev := .vStr r.rev }, r.id)
        rfl k (RETRY_COUNT - 1) 0 RETRY_DELAY (by omega) hf hok
      unfold Pet.create retryRun
      rw [h]
    · have hf : ∀ j, j < k →
          Pet.updateAttempt q (fun i => if i < k then .error ⟨c, m⟩ else .ok r) (0 + j) =
            (.error (.databaseConnectionError
              (ApiErr.render "Update failed Code: " ⟨c, m⟩)), 1) := by
        intro j hj
        simp [Pet.updateAttempt, hj]
      have hok : Pet.updateAttempt q (fun i => if i < k then .error ⟨c, m⟩ else .ok r)
          (0 + k) = (.ok { q with rev := .vStr r.rev }, 1) := by
        simp [Pet.updateAttempt]
      have h := retryAux_ok catchesDb
        (Pet.updateAttempt q (fun i => if i < k then .error ⟨c, m⟩ else .ok r))
        RETRY_BACKOFF
        (.databaseConnectionError (ApiErr.render "Update failed Code: " ⟨c, m⟩))
        { q with rev := .vStr r.rev }
        rfl k (RETRY_COUNT - 1) 0 RETRY_DELAY (by omega) hf hok
      unfold Pet.update retryRun
      rw [h]
    · have hf : ∀ j, j < k →
          Pet.deleteAttempt w (fun i => if i < k then .error ⟨c, m⟩ else .ok dr) (0 + j) =
            (.error (.databaseConnectionError
              (ApiErr.render "Update failed Code: " ⟨c, m⟩)), 1) := by
        intro j hj
        simp [Pet.deleteAttempt, hj]
      have hok : Pet.deleteAttempt w (fun i => if i < k then .error ⟨c, m⟩ else .ok dr)
          (0 + k) = (.ok w, 1) := by
        simp [Pet.deleteAttempt]
      have h := retryAux_ok catchesDb
        (Pet.deleteAttempt w (fun i => if i < k then .error ⟨c, m⟩ else .ok dr))
        RETRY_BACKOFF
        (.databaseConnectionError (ApiErr.render "Update failed Code: " ⟨c, m⟩))
        w
        rfl k (RETRY_COUNT - 1) 0 RETRY_DELAY (by omega) hf hok
      unfold Pet.delete retryRun
      rw [h]
  · intro hk
    refine ⟨?_, ?_, ?_⟩
    · have hf : ∀ j, j ≤ RETRY_COUNT - 1 →
          Pet.createAttempt p (fun i => if i < k then .error ⟨c, m⟩ else .ok r) (0 + j) =
            (.error (.databaseConnectionError
              (ApiErr.render "Create failed Code: " ⟨c, m⟩)), 1) := by
        intro j hj
        have hjk : j < k := by omega
        simp [Pet.createAttempt, hname, hjk]
      have h := retryAux_err catchesDb
        (Pet.createAttempt p (fun i => if i < k then .error ⟨c, m⟩ else .ok r))
        RETRY_BACKOFF
        (.databaseConnectionError (ApiErr.render "Create failed Code: " ⟨c, m⟩))
        rfl (RETRY_COUNT - 1) 0 RETRY_DELAY hf
      unfold Pet.create retryRun
      rw [h]
      rfl
    · have hf : ∀ j, j ≤ RETRY_COUNT - 1 →
          Pet.updateAttempt q (fun i => if i < k then .error ⟨c, m⟩ else .ok r) (0 + j) =
            (.error (.databaseConnectionError
              (ApiErr.render "Update failed Code: " ⟨c, m⟩)), 1) := by
        intro j hj
        have hjk : j < k := by omega
        simp [Pet.updateAttempt, hjk]
      have h := retryAux_err catchesDb
        (Pet.updateAttempt q (fun i => if i < k then .error ⟨c, m⟩ else .ok r))
        RETRY_BACKOFF
        (.databaseConnectionError (ApiErr.render "Update failed Code: " ⟨c, m⟩))
        rfl (RETRY_COUNT - 1) 0 RETRY_DELAY hf
      unfold Pet.update retryRun
      rw [h]
      rfl
    · have hf : ∀ j, j ≤ RETRY_COUNT - 1 →
          Pet.deleteAttempt w (fun i => if i < k then .error ⟨c, m⟩ else .ok dr) (0 + j) =
            (.error (.databaseConnectionError
              (ApiErr.render "Update failed Code: " ⟨c, m⟩)), 1) := by
        intro j hj
        have hjk : j < k := by omega
        simp [Pet.deleteAttempt, hjk]
      have h := retryAux_err catchesDb
        (Pet.deleteAttempt w (fun i => if i < k then .error ⟨c, m⟩ else .ok dr))
        RETRY_BACKOFF
        (.databaseConnectionError (ApiErr.render "Update failed Code: " ⟨c, m⟩))
        rfl (RETRY_COUNT - 1) 0 RETRY_DELAY hf
      unfold Pet.delete retryRun
      rw [h]
      rfl

theorem c6_retry_bound_witness :
    Pet.create petFido0
        (fun i => if i < 2 then .error ⟨503, "Service Unavailable"⟩
          else .ok ⟨true, "abc123", "1-xyz"⟩) =
      ⟨.ok ({ petFido0 with id := .vStr "abc123", rev := .vStr "1-xyz" }, "abc123"),
       3, 3, [1, 2]⟩ ∧
    Pet.update petFido0
        (fun i => if i < 2 then .error ⟨503, "Service Unavailable"⟩
          else .ok ⟨true, "abc123", "1-xyz"⟩) =
      ⟨.ok { petFido0 with rev := .vStr "1-xyz" }, 3, 3, [1, 2]⟩ ∧
    Pet.delete petFido0
        (fun i => if i < 2 then .error ⟨503, "Service Unavailable"⟩
          else .ok ⟨true⟩) =
      ⟨.ok petFido0, 3, 3, [1, 2]⟩ ∧
    Pet.create petFido0
        (fun i => if i < 10 then .error ⟨503, "Service Unavailable"⟩
          else .ok ⟨true, "abc123", "1-xyz"⟩) =
      ⟨.error (.databaseConnectionError
          "Create failed Code: 503 Error: Service Unavailable"),
       10, 10, [1, 2, 4, 8, 16, 32, 64, 128, 256]⟩ ∧
    Pet.update petFido0
        (fun i => if i < 10 then .error ⟨503, "Service Unavailable"⟩
          else .ok ⟨true, "abc123", "1-xyz"⟩) =
      ⟨.error (.databaseConnectionError
          "Update failed Code: 503 Error: Service Unavailable"),
       10, 10, [1, 2, 4, 8, 16, 32, 64, 128, 256]⟩ ∧
    Pet.delete petFido0
        (fun i => if i < 10 then .error ⟨503, "Service Unavailable"⟩
          else .ok ⟨true⟩) =
      ⟨.error (.databaseConnectionError
          "Update failed Code: 503 Error: Service Unavailable"),
       10, 10, [1, 2, 4, 8, 16, 32, 64, 128, 256]⟩ := by
  have hs := c6_retry_bound 2 503 "Service Unavailable" ⟨true, "abc123", "1-xyz"⟩
    ⟨true⟩ petFido0 petFido0 petFido0 (by decide)
  have he := c6_retry_bound 10 503 "Service Unavailable" ⟨true, "abc123", "1-xyz"⟩
    ⟨true⟩ petFido0 petFido0 petFido0 (by decide)
  obtain ⟨hs1, hs2, hs3⟩ := hs.1 (by decide)
  obtain ⟨he1, he2, he3⟩ := he.2 (by decide)
  refine ⟨?_, ?_, ?_, ?_, ?_, ?_⟩
  · rw [hs1]
    rfl
  · rw [hs2]
    rfl
  · rw [hs3]
    rfl
  · rw [he1]
    rfl
  · rw [he2]
    rfl
  · rw [he3]
    rfl

/-- A stored document for `Pet.find` evaluations. -/
def docFido : Doc :=
  [("_id", .vStr "pet1"), ("_rev", .vStr "1-abc"), ("name", .vStr "Fido"),
   ("category", .vStr "dog"), ("available", .vBool true),
   ("gender", .vStr "MALE"), ("birthday", .vStr "2020-01-01")]

/-- C2 (code bug): `Pet.find` returns the decoded record when the store
holds the document, and returns `None` when the store reports 404 — but it
ALSO returns `None` (after a single attempt, with no retry and no raised
error) when the store fails with any other `ApiException`, e.g. a 500,
because the `return None` in the source sits outside the `if code == 404`
test.  The spec requires non-404 failures to escalate instead. -/
theorem c2_find_not_found_vs_other_failures :
    Pet.find env0 (fun _ => .ok docFido) =
      ⟨.ok (some (Pet.mk (.vStr "pet1") (.vStr "1-abc") (.vStr "Fido")
        (.vStr "dog") (.vBool true) .MALE ⟨2020, 1, 1⟩)), 1, 1, []⟩ ∧
    Pet.find env0 (fun _ => .error ⟨404, "not_found"⟩) = ⟨.ok none, 1, 1, []⟩ ∧
    Pet.find env0 (fun _ => .error ⟨500, "Internal Server Error"⟩) =
      ⟨.ok none, 1, 1, []⟩ :=
  ⟨rfl, rfl, rfl⟩

/-- C7 (code bug): the query operations `Pet.all` and `Pet.find_by` are
decorated with `@retry(ApiException, ...)`, but their bodies catch every
`ApiException` and re-raise it as `DatabaseConnectionError`, which that
decorator does not retry — so a transient store failure during a query is
surfaced as `DatabaseConnectionError` after a single invocation, with no
retries and no backoff sleeps, instead of being retried up to
`RETRY_COUNT` attempts as the spec states. -/
theorem c7_query_retry_ineffective :
    Pet.all env0 (fun _ => .error ⟨503, "Service Unavailable"⟩) =
      ⟨.error (.databaseConnectionError
        "Query All failed Code: 503 Error: Service Unavailable"), 1, 1, []⟩ ∧
    Pet.find_by env0 (fun _ => .error ⟨503, "Service Unavailable"⟩) =
      ⟨.error (.databaseConnectionError
        "Find By failed Code: 503 Error: Service Unavailable"), 1, 1, []⟩ :=
  ⟨rfl, rfl⟩
